import Mathlib

/-!
# Operand tables of the ppc64 and s390x disassembler test generators

The two headers `ppc64/ppc64util/hack.h` and `s390x/s390xutil/hack.h` consist of
object-like `#define` lines only.  Each line gives an identifier used in the
generated assembly (an instruction field, or a mnemonic) the text it is replaced
by.  This file embeds both headers line by line, gives the `#define` lines their
preprocessor meaning (a later definition of a name takes the place of an earlier
one, an identifier without a definition is left as it is, a replacement is scanned
again for further macros), and proves properties of the values they assign.
-/

set_option maxRecDepth 1000000

namespace Hack

/-- Replacement text of one `#define` line.  The headers use two shapes only: an
integer constant (decimal or hexadecimal, once with a leading minus sign) and a
single identifier. -/
inductive Repl where
  | int (v : Int)
  | ident (s : String)
  deriving DecidableEq, Repr

/-- One line `#define name body`. -/
structure Define where
  name : String
  body : Repl
  deriving DecidableEq, Repr

/-- The `#define` lines of `ppc64/ppc64util/hack.h` (lines 16 to 163), in file order. -/
def ppc64 : List Define := [
  Define.mk "RA" (Repl.int 1),
  Define.mk "RB" (Repl.int 2),
  Define.mk "RS" (Repl.int 3),
  Define.mk "RT" (Repl.int 4),
  Define.mk "RC" (Repl.int 5),
  Define.mk "RSp" (Repl.int 6),
  Define.mk "RTp" (Repl.int 8),
  Define.mk "MB" (Repl.int 1),
  Define.mk "ME" (Repl.int 7),
  Define.mk "NB" (Repl.int 2),
  Define.mk "CY" (Repl.int 1),
  Define.mk "LEV" (Repl.int 1),
  Define.mk "FRBp" (Repl.int 2),
  Define.mk "FRAp" (Repl.int 4),
  Define.mk "FRTp" (Repl.int 6),
  Define.mk "FRSp" (Repl.int 8),
  Define.mk "FRT" (Repl.int 3),
  Define.mk "FRA" (Repl.int 5),
  Define.mk "FRB" (Repl.int 7),
  Define.mk "FRC" (Repl.int 9),
  Define.mk "FRS" (Repl.int 11),
  Define.mk "FLM" (Repl.int 8),
  Define.mk "U" (Repl.int 3),
  Define.mk "W" (Repl.int 0),
  Define.mk "TE" (Repl.int 15),
  Define.mk "SP" (Repl.int 1),
  Define.mk "S" (Repl.int 1),
  Define.mk "DRM" (Repl.int 0x7),
  Define.mk "RM" (Repl.int 0x3),
  Define.mk "BF" (Repl.int 3),
  Define.mk "SH" (Repl.int 7),
  Define.mk "XT" (Repl.int 33),
  Define.mk "XA" (Repl.int 35),
  Define.mk "XB" (Repl.int 37),
  Define.mk "XS" (Repl.int 39),
  Define.mk "XC" (Repl.int 41),
  Define.mk "XAp" (Repl.int 36),
  Define.mk "XTp" (Repl.int 38),
  Define.mk "XSp" (Repl.int 40),
  Define.mk "DM" (Repl.int 1),
  Define.mk "SHW" (Repl.int 2),
  Define.mk "VRA" (Repl.int 1),
  Define.mk "VRB" (Repl.int 2),
  Define.mk "VRC" (Repl.int 3),
  Define.mk "VRT" (Repl.int 4),
  Define.mk "VRS" (Repl.int 5),
  Define.mk "SHB" (Repl.int 3),
  Define.mk "SIX" (Repl.int 1),
  Define.mk "ST" (Repl.int 1),
  Define.mk "PS" (Repl.int 0),
  Define.mk "MP" (Repl.int 1),
  Define.mk "bm" (Repl.int 0x45FF),
  Define.mk "N" (Repl.int 3),
  Define.mk "AT" (Repl.int 7),
  Define.mk "AS" (Repl.int 6),
  Define.mk "RMC" (Repl.int 3),
  Define.mk "UIM" (Repl.int 1),
  Define.mk "DCMX" (Repl.int 0x23),
  Define.mk "DCM" (Repl.int 0x11),
  Define.mk "DGM" (Repl.int 0x11),
  Define.mk "R" (Repl.int 1),
  Define.mk "BA" (Repl.int 1),
  Define.mk "BB" (Repl.int 2),
  Define.mk "BT" (Repl.int 3),
  Define.mk "BO" (Repl.int 4),
  Define.mk "BI" (Repl.int 6),
  Define.mk "BH" (Repl.int 0),
  Define.mk "BFA" (Repl.int 7),
  Define.mk "FXM" (Repl.int 8),
  Define.mk "BC" (Repl.int 11),
  Define.mk "L" (Repl.int 1),
  Define.mk "EH" (Repl.int 1),
  Define.mk "SPR" (Repl.int 69),
  Define.mk "BHRBE" (Repl.int 69),
  Define.mk "TO" (Repl.int 0x11),
  Define.mk "TBR" (Repl.int 268),
  Define.mk "CT" (Repl.int 2),
  Define.mk "FC" (Repl.int 2),
  Define.mk "TH" (Repl.int 3),
  Define.mk "WC" (Repl.int 1),
  Define.mk "PL" (Repl.int 0),
  Define.mk "IH" (Repl.int 4),
  Define.mk "RIC" (Repl.int 1),
  Define.mk "PRS" (Repl.int 1),
  Define.mk "SIM" (Repl.int 6),
  Define.mk "IMM" (Repl.int 13),
  Define.mk "IMM8" (Repl.int 14),
  Define.mk "D" (Repl.int 0x80),
  Define.mk "SC" (Repl.int 1),
  Define.mk "target_addr" (Repl.int 0x690),
  Define.mk "XMSK" (Repl.int 0x9),
  Define.mk "YMSK" (Repl.int 0x3),
  Define.mk "PMSK" (Repl.int 0x2),
  Define.mk "IX" (Repl.int 1),
  Define.mk "IMM32" (Repl.int 0x1234567),
  Define.mk "Dpfx" (Repl.int 0x160032),
  Define.mk "RApfx" (Repl.int 0x0),
  Define.mk "Rpfx" (Repl.int 1),
  Define.mk "SIpfx" (Repl.int 0xFFFFFFFE00010007),
  Define.mk "offset" (Repl.int (-128)),
  Define.mk "mfvsrd" (Repl.ident "xsrsp"),
  Define.mk "mfvsrwz" (Repl.ident "xsrsp"),
  Define.mk "mtvsrd" (Repl.ident "xsrsp"),
  Define.mk "mtvsrwz" (Repl.ident "xsrsp"),
  Define.mk "mtvsrwa" (Repl.ident "xsrsp"),
  Define.mk "isel" (Repl.ident "rldicl"),
  Define.mk "dcbf" (Repl.ident "add"),
  Define.mk "sync" (Repl.ident "xsrsp"),
  Define.mk "wait" (Repl.ident "xsrsp"),
  Define.mk "rfebb" (Repl.ident "sc"),
  Define.mk "sync" (Repl.ident "xsrsp")
]

/-- The `#define` lines of `s390x/s390xutil/hack.h` (lines 17 to 56), in file order. -/
def s390x : List Define := [
  Define.mk "R1" (Repl.int 8),
  Define.mk "R2" (Repl.int 0),
  Define.mk "R3" (Repl.int 0),
  Define.mk "X2" (Repl.int 2),
  Define.mk "L1" (Repl.int 4),
  Define.mk "L2" (Repl.int 4),
  Define.mk "B1" (Repl.int 2),
  Define.mk "B2" (Repl.int 1),
  Define.mk "B3" (Repl.int 6),
  Define.mk "B4" (Repl.int 8),
  Define.mk "D1" (Repl.int 6),
  Define.mk "D2" (Repl.int 11),
  Define.mk "D3" (Repl.int 182),
  Define.mk "D4" (Repl.int 205),
  Define.mk "V1" (Repl.int 18),
  Define.mk "V2" (Repl.int 3),
  Define.mk "V3" (Repl.int 5),
  Define.mk "V4" (Repl.int 8),
  Define.mk "I" (Repl.int 124),
  Define.mk "I1" (Repl.int 12),
  Define.mk "I2" (Repl.int 8),
  Define.mk "I3" (Repl.int 9),
  Define.mk "I4" (Repl.int 105),
  Define.mk "I5" (Repl.int 18),
  Define.mk "RI2" (Repl.int 0),
  Define.mk "RI3" (Repl.int 294),
  Define.mk "RI4" (Repl.int (-168)),
  Define.mk "M1" (Repl.int 7),
  Define.mk "M3" (Repl.int 3),
  Define.mk "M4" (Repl.int 1),
  Define.mk "M5" (Repl.int 9),
  Define.mk "M6" (Repl.int 11)
]

/-- The two architectures, one header each. -/
inductive Arch where
  | ppc64
  | s390x
  deriving DecidableEq, Repr

/-- The header of an architecture. -/
def Arch.header : Arch → List Define
  | .ppc64 => Hack.ppc64
  | .s390x => Hack.s390x

/-! ## Meaning of the `#define` lines -/

/-- Processing one `#define` line: the new definition is entered into the macro
table and takes the place of an earlier definition of the same name. -/
def define (env : List Define) (d : Define) : List Define :=
  env.filter (fun e => e.name != d.name) ++ [d]

/-- The macro table in force after the lines were processed in file order. -/
def macros (ds : List Define) : List Define :=
  ds.foldl define []

/-- The replacement text on record for an identifier, if it is a macro. -/
def lookupMacro (env : List Define) (name : String) : Option Repl :=
  (env.find? (fun e => e.name == name)).map Define.body

/-- Macro expansion of one identifier.  An identifier that is no macro stays as it
is.  A macro is replaced by its text; an integer constant is final, an identifier
is scanned again, with the names already replaced on the way (`hidden`) no longer
eligible.  `fuel` bounds the number of rescans. -/
def expand (env : List Define) : Nat → List String → String → Repl
  | 0, _, name => Repl.ident name
  | fuel + 1, hidden, name =>
    if hidden.contains name then Repl.ident name
    else
      match lookupMacro env name with
      | none => Repl.ident name
      | some (Repl.int v) => Repl.int v
      | some (Repl.ident target) => expand env fuel (name :: hidden) target

/-- What an identifier of the generated assembly turns into under the header of
architecture `a`.  Every rescan hides one more macro name, so one unit of fuel per
table entry (and one to spare) is never used up. -/
def resolve (a : Arch) (name : String) : Repl :=
  expand (macros a.header) ((macros a.header).length + 1) [] name

/-- The integer a field name resolves to, if it resolves to an integer. -/
def fieldValue (a : Arch) (name : String) : Option Int :=
  match resolve a name with
  | Repl.int v => some v
  | Repl.ident _ => none

/-- A line that gives a name an integer constant declares an instruction field; a
line that gives a name another identifier redirects a mnemonic. -/
def Define.isField (d : Define) : Bool :=
  match d.body with
  | Repl.int _ => true
  | Repl.ident _ => false

/-- The names the header gives an integer constant, in file order. -/
def fieldNames (ds : List Define) : List String :=
  (ds.filter Define.isField).map Define.name

/-- The names the header redirects to another mnemonic, in file order. -/
def overrideSources (ds : List Define) : List String :=
  (ds.filter (fun d => !d.isField)).map Define.name

/-- The mnemonics the lines of the header redirect to, in file order. -/
def overrideTargets (ds : List Define) : List String :=
  ds.filterMap (fun d =>
    match d.body with
    | Repl.ident target => some target
    | Repl.int _ => none)

/-- Scanning an expansion once more: an integer constant is no identifier and stays,
an identifier is expanded under the header of `a`. -/
def rescan (a : Arch) : Repl → Repl
  | Repl.int v => Repl.int v
  | Repl.ident name => resolve a name

/-- One look into the macro table, with no further scan of the text found. -/
def lookupOnce (a : Arch) (name : String) : Repl :=
  match lookupMacro (macros a.header) name with
  | some text => text
  | none => Repl.ident name

/-- The registers a register-pair field with first index `v` stands for. -/
def pairRegisters (v : Int) : List Int :=
  [v, v + 1]

/-! ## Architecture table of the specification -/

/-- Configuration failures of an architecture table. -/
inductive TableError where
  | undefinedField (a : Arch) (field : String)
  | duplicateField (a : Arch) (field : String)
  deriving DecidableEq, Repr

/-- One field value table and one mnemonic override table. -/
structure ArchitectureTable where
  arch : Arch
  fields : List (String × Int)
  overrides : List (String × String)
  deriving DecidableEq, Repr

/-- Modelled from the spec: the loader of section 4.3 is in neither header; this is
one step of it.  A declaration with an integer value is a field: a field name
declared before is the fatal `DuplicateField`.  A declaration whose value is a
mnemonic is an override: it is never an error, and it takes the place of an
earlier override of the same source mnemonic. -/
def loadStep (t : ArchitectureTable) (d : Define) : Except TableError ArchitectureTable :=
  match d.body with
  | Repl.int v =>
    if t.fields.any (fun p => p.1 == d.name) then
      Except.error (TableError.duplicateField t.arch d.name)
    else
      Except.ok (ArchitectureTable.mk t.arch (t.fields ++ [(d.name, v)]) t.overrides)
  | Repl.ident target =>
    Except.ok (ArchitectureTable.mk t.arch t.fields
      (t.overrides.filter (fun p => p.1 != d.name) ++ [(d.name, target)]))

/-- Modelled from the spec: `load(architecture)` of section 4.3, absent from the
headers.  The declarations of the header are entered in file order, starting from
two empty tables.  The `DeadOverride` warning needs the instruction catalog, is not
fatal, and is left out. -/
def load (a : Arch) : Except TableError ArchitectureTable :=
  a.header.foldlM loadStep (ArchitectureTable.mk a [] [])

/-- Modelled from the spec: `resolve(architecture, fieldName)` of section 4.1, with
its `UndefinedField` failure for a name the field table does not have. -/
def ArchitectureTable.resolveField (t : ArchitectureTable) (field : String) :
    Except TableError Int :=
  match t.fields.find? (fun p => p.1 == field) with
  | some p => Except.ok p.2
  | none => Except.error (TableError.undefinedField t.arch field)

/-- Modelled from the spec: `resolve(architecture, sourceMnemonic)` of section 4.2;
a mnemonic without an override is returned unchanged. -/
def ArchitectureTable.resolveMnemonic (t : ArchitectureTable) (mnemonic : String) : String :=
  match t.overrides.find? (fun p => p.1 == mnemonic) with
  | some p => p.2
  | none => mnemonic

/-! ## Last definition wins -/

/-- After one more `#define` line the text on record for a name is the text of that
line if it defines the name, and the text on record before otherwise. -/
theorem lookupMacro_define (env : List Define) (d : Define) (n : String) :
    lookupMacro (define env d) n = if d.name = n then some d.body else lookupMacro env n := by
  unfold lookupMacro define
  by_cases h : d.name = n
  · subst h
    have hnone : (env.filter (fun e => e.name != d.name)).find? (fun e => e.name == d.name) = none := by
      rw [List.find?_eq_none]
      intro e he
      have := (List.mem_filter.mp he).2
      simpa using this
    simp [List.find?_append, hnone]
  · have hfilter : (env.filter (fun e => e.name != d.name)).find? (fun e => e.name == n)
        = env.find? (fun e => e.name == n) := by
      induction env with
      | nil => rfl
      | cons e es ih =>
        by_cases he : e.name = d.name
        · have hen : ¬ e.name = n := fun h2 => h (he ▸ h2)
          simp [List.filter_cons, he, List.find?_cons, hen, h]
          simpa [he] using ih
        · by_cases hen : e.name = n
          · have hnd : ¬ n = d.name := fun h2 => h h2.symm
            simp [List.filter_cons, List.find?_cons, hen, hnd]
          · simp [List.filter_cons, he, List.find?_cons, hen]
            simpa using ih
    simp [List.find?_append, hfilter, h]

/-- Last definition wins: once all lines were processed in file order, the text on
record for a name is the text of the last line that defines it, and there is none
if no line defines it. -/
theorem lookupMacro_macros (ds : List Define) (n : String) :
    lookupMacro (macros ds) n =
      ((ds.filter (fun d => d.name == n)).getLast?).map Define.body := by
  unfold macros
  induction ds using List.reverseRecOn with
  | nil => rfl
  | append_singleton ds d ih =>
    rw [List.foldl_append, List.foldl_cons, List.foldl_nil, lookupMacro_define, ih]
    by_cases h : d.name = n
    · simp [List.filter_append, h, List.getLast?_append]
    · simp [List.filter_append, h]

/-! ## Names without a definition -/

/-- A name that no line defines has no text on record. -/
theorem lookupMacro_macros_of_not_mem (ds : List Define) (n : String)
    (h : n ∉ ds.map Define.name) : lookupMacro (macros ds) n = none := by
  rw [lookupMacro_macros]
  have hnil : ds.filter (fun d => d.name == n) = [] := by
    rw [List.filter_eq_nil_iff]
    intro d hd hdn
    exact h (List.mem_map.mpr ⟨d, hd, by simpa using hdn⟩)
  rw [hnil]
  rfl

/-- An identifier with no text on record is left as it is, whatever the fuel. -/
theorem expand_of_lookup_none (env : List Define) (fuel : Nat) (hidden : List String)
    (n : String) (h : lookupMacro env n = none) : expand env fuel hidden n = Repl.ident n := by
  cases fuel with
  | zero => rfl
  | succ k =>
    unfold expand
    split
    · rfl
    · rw [h]

/-- A name that the header of `a` does not define resolves to itself. -/
theorem resolve_of_not_declared (a : Arch) (n : String)
    (h : n ∉ a.header.map Define.name) : resolve a n = Repl.ident n :=
  expand_of_lookup_none _ _ _ _ (lookupMacro_macros_of_not_mem _ _ h)

/-- A name that the header of `a` does not define is found unchanged by one lookup. -/
theorem lookupOnce_of_not_declared (a : Arch) (n : String)
    (h : n ∉ a.header.map Define.name) : lookupOnce a n = Repl.ident n := by
  unfold lookupOnce
  rw [lookupMacro_macros_of_not_mem _ _ h]

/-- A mnemonic that is no source of the override table is returned unchanged. -/
theorem resolveMnemonic_of_not_source (t : ArchitectureTable) (m : String)
    (h : m ∉ t.overrides.map Prod.fst) : t.resolveMnemonic m = m := by
  unfold ArchitectureTable.resolveMnemonic
  have hnone : t.overrides.find? (fun p => p.1 == m) = none := by
    rw [List.find?_eq_none]
    intro p hp hpm
    exact h (List.mem_map.mpr ⟨p, hp, by simpa using hpm⟩)
  rw [hnone]

/-- A name that the field table does not have fails with `UndefinedField`. -/
theorem resolveField_of_not_field (t : ArchitectureTable) (f : String)
    (h : f ∉ t.fields.map Prod.fst) :
    t.resolveField f = Except.error (TableError.undefinedField t.arch f) := by
  unfold ArchitectureTable.resolveField
  have hnone : t.fields.find? (fun p => p.1 == f) = none := by
    rw [List.find?_eq_none]
    intro p hp hpf
    exact h (List.mem_map.mpr ⟨p, hp, by simpa using hpf⟩)
  rw [hnone]

/-! ## What loading the two headers yields -/

/-- A computation whose successful result is known through a function of it did
succeed, with a result of which the function gives that value. -/
theorem exists_ok_of_toOption_map {ε α β : Type} (x : Except ε α) (f : α → β) (b : β)
    (h : x.toOption.map f = some b) : ∃ t, x = Except.ok t ∧ f t = b := by
  cases x with
  | error e => simp [Except.toOption] at h
  | ok t => exact ⟨t, rfl, by simpa [Except.toOption] using h⟩

/-- A computation whose successful result is known did succeed with that result. -/
theorem eq_ok_of_toOption {ε α : Type} (x : Except ε α) (v : α)
    (h : x.toOption = some v) : x = Except.ok v := by
  cases x with
  | error e => simp [Except.toOption] at h
  | ok t => simpa [Except.toOption] using h

/-- Loading the ppc64 header succeeds; the loaded table is the one of ppc64, its field
names are the field names of the header, its override sources are the ten sources of
the header, and it has the value 1 for `RA`. -/
theorem load_ppc64_summary :
    ∃ t, load Arch.ppc64 = Except.ok t ∧ t.arch = Arch.ppc64 ∧
      t.fields.map Prod.fst = fieldNames Hack.ppc64 ∧
      t.overrides.map Prod.fst =
        ["mfvsrd", "mfvsrwz", "mtvsrd", "mtvsrwz", "mtvsrwa", "isel", "dcbf", "wait", "rfebb",
         "sync"] ∧
      t.resolveField "RA" = Except.ok 1 := by
  have key : (load Arch.ppc64).toOption.map (fun t =>
      (t.arch, t.fields.map Prod.fst, t.overrides.map Prod.fst,
        (t.resolveField "RA").toOption)) =
      some (Arch.ppc64, fieldNames Hack.ppc64,
        ["mfvsrd", "mfvsrwz", "mtvsrd", "mtvsrwz", "mtvsrwa", "isel", "dcbf", "wait", "rfebb",
         "sync"], some 1) := by decide
  obtain ⟨t, ht, hval⟩ := exists_ok_of_toOption_map _ _ _ key
  simp only [Prod.mk.injEq] at hval
  exact ⟨t, ht, hval.1, hval.2.1, hval.2.2.1, eq_ok_of_toOption _ _ hval.2.2.2⟩

/-- Loading the s390x header succeeds; the loaded table is the one of s390x, its field
names are the field names of the header, it has no override, and it has the value 8
for `R1`. -/
theorem load_s390x_summary :
    ∃ t, load Arch.s390x = Except.ok t ∧ t.arch = Arch.s390x ∧
      t.fields.map Prod.fst = fieldNames Hack.s390x ∧ t.overrides.map Prod.fst = [] ∧
      t.resolveField "R1" = Except.ok 8 := by
  have key : (load Arch.s390x).toOption.map (fun t =>
      (t.arch, t.fields.map Prod.fst, t.overrides.map Prod.fst,
        (t.resolveField "R1").toOption)) =
      some (Arch.s390x, fieldNames Hack.s390x, [], some 8) := by decide
  obtain ⟨t, ht, hval⟩ := exists_ok_of_toOption_map _ _ _ key
  simp only [Prod.mk.injEq] at hval
  exact ⟨t, ht, hval.1, hval.2.1, hval.2.2.1, eq_ok_of_toOption _ _ hval.2.2.2⟩

/-! ## Properties of the two tables -/

/-- Claim C1: processing the lines of the ppc64 header in file order leaves, for every
name, the text of the last line that defines it.  The header ends with the lines
`sync`, `wait`, `rfebb`, `sync`, so `sync` is defined twice with `wait` and `rfebb` in
between, and nowhere else; both lines give `xsrsp`, and `sync` resolves to `xsrsp`,
the text of the last of them.  Loading the table is no error, and the loaded override
table gives `xsrsp` for `sync` as well. -/
theorem ppc64_sync_last_declaration_wins :
    (∀ n, lookupMacro (macros Hack.ppc64) n =
        ((Hack.ppc64.filter (fun d => d.name == n)).getLast?).map Define.body) ∧
      Hack.ppc64.drop 107 =
        [Define.mk "sync" (Repl.ident "xsrsp"), Define.mk "wait" (Repl.ident "xsrsp"),
         Define.mk "rfebb" (Repl.ident "sc"), Define.mk "sync" (Repl.ident "xsrsp")] ∧
      Hack.ppc64.filter (fun d => d.name == "sync") =
        [Define.mk "sync" (Repl.ident "xsrsp"), Define.mk "sync" (Repl.ident "xsrsp")] ∧
      (Hack.ppc64.filter (fun d => d.name == "sync")).getLast? =
        some (Define.mk "sync" (Repl.ident "xsrsp")) ∧
      resolve Arch.ppc64 "sync" = Repl.ident "xsrsp" ∧
      ∃ t, load Arch.ppc64 = Except.ok t ∧ t.resolveMnemonic "sync" = "xsrsp" := by
  refine ⟨fun n => lookupMacro_macros Hack.ppc64 n, by decide, by decide, by decide,
    by decide, _, rfl, ?_⟩
  decide

/-- Claim C2: in the ppc64 table `RA`, `RB`, `RS`, `RT` resolve to 1, 2, 3, 4, and the
seven general-register fields `RA`, `RB`, `RS`, `RT`, `RC`, `RSp`, `RTp` all resolve to
integers that are pairwise distinct and none of which is zero. -/
theorem ppc64_general_registers_distinct_nonzero :
    fieldValue Arch.ppc64 "RA" = some 1 ∧ fieldValue Arch.ppc64 "RB" = some 2 ∧
      fieldValue Arch.ppc64 "RS" = some 3 ∧ fieldValue Arch.ppc64 "RT" = some 4 ∧
      (["RA", "RB", "RS", "RT", "RC", "RSp", "RTp"].map (fieldValue Arch.ppc64)).Pairwise
        (fun x y => x ≠ y) ∧
      ∀ f ∈ ["RA", "RB", "RS", "RT", "RC", "RSp", "RTp"],
        ∃ v, fieldValue Arch.ppc64 f = some v ∧ v ≠ 0 := by
  decide

/-- Claim C3, as stated, fails: the s390x fields `R1`, `R2`, `R3` are not pairwise
distinct, so they are not all three of `R1..R3`, `B1..B4`, `V1..V4` pairwise distinct
within their class. -/
theorem s390x_general_registers_alias :
    ¬ ((["R1", "R2", "R3"].map (fieldValue Arch.s390x)).Pairwise (fun x y => x ≠ y) ∧
      (["B1", "B2", "B3", "B4"].map (fieldValue Arch.s390x)).Pairwise (fun x y => x ≠ y) ∧
      (["V1", "V2", "V3", "V4"].map (fieldValue Arch.s390x)).Pairwise (fun x y => x ≠ y)) := by
  decide

/-- Claim C3, amended: in the s390x table the base-register fields `B1`, `B2`, `B3`,
`B4` resolve to pairwise distinct integers, so do the vector-register fields `V1`,
`V2`, `V3`, `V4`, and the general-register field `R1` differs from `R2` and from `R3`;
`R2` and `R3` resolve to the same integer, 0. -/
theorem s390x_register_fields_distinct_within_class :
    (["B1", "B2", "B3", "B4"].map (fieldValue Arch.s390x)).Pairwise (fun x y => x ≠ y) ∧
      (["V1", "V2", "V3", "V4"].map (fieldValue Arch.s390x)).Pairwise (fun x y => x ≠ y) ∧
      (["R1", "R2", "R3", "B1", "B2", "B3", "B4", "V1", "V2", "V3", "V4"].map
        (fieldValue Arch.s390x)).all Option.isSome = true ∧
      fieldValue Arch.s390x "R1" ≠ fieldValue Arch.s390x "R2" ∧
      fieldValue Arch.s390x "R1" ≠ fieldValue Arch.s390x "R3" ∧
      fieldValue Arch.s390x "R2" = some 0 ∧ fieldValue Arch.s390x "R3" = some 0 := by
  decide

/-- Claim C4, as stated, fails: not every one of the s390x general-register fields
`R1`, `R2`, `R3` resolves to a non-zero integer. -/
theorem s390x_general_registers_not_all_nonzero :
    ¬ ∀ f ∈ ["R1", "R2", "R3"], ∃ v, fieldValue Arch.s390x f = some v ∧ v ≠ 0 := by
  decide

/-- Claim C4, amended: of the s390x general-register fields `R1`, `R2`, `R3`, the
field `R1` resolves to a non-zero integer (8), and `R2` and `R3` both resolve to 0. -/
theorem s390x_general_registers_zero_and_nonzero :
    (∃ v, fieldValue Arch.s390x "R1" = some v ∧ v ≠ 0) ∧
      fieldValue Arch.s390x "R1" = some 8 ∧
      fieldValue Arch.s390x "R2" = some 0 ∧ fieldValue Arch.s390x "R3" = some 0 := by
  decide

/-- Claim C5: the ppc64 field `offset`, the displacement of the hash check and hash
store instructions, resolves to exactly -128, which is negative and is not the value
0x80 = 128 that the generic displacement field `D` resolves to. -/
theorem ppc64_offset_is_minus_128 :
    resolve Arch.ppc64 "offset" = Repl.int (-128) ∧
      (∃ v, fieldValue Arch.ppc64 "offset" = some v ∧ v = -128 ∧ v < 0) ∧
      fieldValue Arch.ppc64 "D" = some 0x80 ∧ fieldValue Arch.ppc64 "D" = some 128 ∧
      fieldValue Arch.ppc64 "offset" ≠ fieldValue Arch.ppc64 "D" := by
  decide

/-- Claim C6: the ppc64 field `SIpfx` resolves to 0xFFFFFFFE00010007, whose upper 32
bits differ from its lower 32 bits, and `Dpfx` resolves to 0x160032, whose bits above
bit 16 differ from its low 16 bits; in both cases the value with the two halves
exchanged is not the value itself. -/
theorem ppc64_prefixed_immediate_halves_differ :
    (∃ v, fieldValue Arch.ppc64 "SIpfx" = some v ∧ v = 0xFFFFFFFE00010007 ∧
        v / 2 ^ 32 = 0xFFFFFFFE ∧ v % 2 ^ 32 = 0x00010007 ∧
        v / 2 ^ 32 ≠ v % 2 ^ 32 ∧ v % 2 ^ 32 * 2 ^ 32 + v / 2 ^ 32 ≠ v) ∧
      ∃ v, fieldValue Arch.ppc64 "Dpfx" = some v ∧ v = 0x160032 ∧
        v / 2 ^ 16 = 0x16 ∧ v % 2 ^ 16 = 0x0032 ∧
        v / 2 ^ 16 ≠ v % 2 ^ 16 ∧ v % 2 ^ 16 * 2 ^ 16 + v / 2 ^ 16 ≠ v := by
  refine ⟨⟨_, rfl, ?_⟩, _, rfl, ?_⟩ <;> decide

/-- Claim C7: loading either table is no `DuplicateField` error: the ppc64 table
loads with its 100 fields and 10 overrides, the s390x table with its 32 fields; no
name occurs twice among the integer-valued lines of the ppc64 header, none among the
lines of the s390x header, which are all integer-valued; and the names defined more
than once are `sync` alone in the ppc64 header and none in the s390x header. -/
theorem tables_load_without_duplicate_field :
    (∃ t, load Arch.ppc64 = Except.ok t ∧ t.fields.length = 100 ∧ t.overrides.length = 10) ∧
      (∃ t, load Arch.s390x = Except.ok t ∧ t.fields.length = 32 ∧ t.overrides.length = 0) ∧
      ((Hack.ppc64.filter Define.isField).map Define.name).Nodup ∧
      (Hack.s390x.map Define.name).Nodup ∧ Hack.s390x.all Define.isField = true ∧
      ((Hack.ppc64.map Define.name).filter
        (fun n => 1 < (Hack.ppc64.map Define.name).count n)).dedup = ["sync"] ∧
      (Hack.s390x.map Define.name).filter
        (fun n => 1 < (Hack.s390x.map Define.name).count n) = [] := by
  refine ⟨⟨_, rfl, ?_, ?_⟩, ⟨_, rfl, ?_, ?_⟩, ?_, ?_, ?_, ?_, ?_⟩ <;> decide

/-- Claim C8: each of the ppc64 register-pair fields `RSp`, `RTp`, `FRBp`, `FRAp`,
`FRTp`, `FRSp`, `XAp`, `XTp`, `XSp` resolves to an even integer. -/
theorem ppc64_pair_fields_even :
    ∀ f ∈ ["RSp", "RTp", "FRBp", "FRAp", "FRTp", "FRSp", "XAp", "XTp", "XSp"],
      ∃ v, fieldValue Arch.ppc64 f = some v ∧ v % 2 = 0 := by
  decide

/-- Instance of `ppc64_pair_fields_even` at the field `XAp`. -/
theorem ppc64_pair_fields_even_witness :
    "XAp" ∈ ["RSp", "RTp", "FRBp", "FRAp", "FRTp", "FRSp", "XAp", "XTp", "XSp"] ∧
      ∃ v, fieldValue Arch.ppc64 "XAp" = some v ∧ v % 2 = 0 :=
  ⟨by decide, ppc64_pair_fields_even "XAp" (by decide)⟩

/-- Claim C9: every register field resolves to an integer inside the range of its
register class.  In ppc64 the general, floating-point and vector register fields lie
in 0..31, the VSX register fields in 0..63 and the accumulator fields in 0..7; in
s390x `R1`, `R2`, `R3`, `B1`, `B2`, `B3`, `B4`, `X2` lie in 0..15 and `V1`, `V2`, `V3`,
`V4` in 0..31. -/
theorem register_fields_within_class_range :
    (∀ f ∈ ["RA", "RB", "RS", "RT", "RC", "RSp", "RTp"],
        ∃ v, fieldValue Arch.ppc64 f = some v ∧ 0 ≤ v ∧ v ≤ 31) ∧
      (∀ f ∈ ["FRT", "FRA", "FRB", "FRC", "FRS", "FRAp", "FRBp", "FRTp", "FRSp"],
        ∃ v, fieldValue Arch.ppc64 f = some v ∧ 0 ≤ v ∧ v ≤ 31) ∧
      (∀ f ∈ ["VRA", "VRB", "VRC", "VRT", "VRS"],
        ∃ v, fieldValue Arch.ppc64 f = some v ∧ 0 ≤ v ∧ v ≤ 31) ∧
      (∀ f ∈ ["XT", "XA", "XB", "XS", "XC", "XAp", "XTp", "XSp"],
        ∃ v, fieldValue Arch.ppc64 f = some v ∧ 0 ≤ v ∧ v ≤ 63) ∧
      (∀ f ∈ ["AT", "AS"], ∃ v, fieldValue Arch.ppc64 f = some v ∧ 0 ≤ v ∧ v ≤ 7) ∧
      (∀ f ∈ ["R1", "R2", "R3", "B1", "B2", "B3", "B4", "X2"],
        ∃ v, fieldValue Arch.s390x f = some v ∧ 0 ≤ v ∧ v ≤ 15) ∧
      ∀ f ∈ ["V1", "V2", "V3", "V4"],
        ∃ v, fieldValue Arch.s390x f = some v ∧ 0 ≤ v ∧ v ≤ 31 := by
  decide

/-- Claim C10: every bit-range field resolves to an integer strictly inside its
range, neither 0 nor the maximum: in ppc64 `MB`, `ME`, `SH`, `NB` lie strictly between
0 and 31, `SHW` strictly between 0 and 3 and `SHB` strictly between 0 and 15; in s390x
`L1` and `L2` lie strictly between 0 and 15. -/
theorem bit_range_fields_strictly_inside :
    (∀ f ∈ ["MB", "ME", "SH", "NB"], ∃ v, fieldValue Arch.ppc64 f = some v ∧ 0 < v ∧ v < 31) ∧
      (∃ v, fieldValue Arch.ppc64 "SHW" = some v ∧ 0 < v ∧ v < 3) ∧
      (∃ v, fieldValue Arch.ppc64 "SHB" = some v ∧ 0 < v ∧ v < 15) ∧
      ∀ f ∈ ["L1", "L2"], ∃ v, fieldValue Arch.s390x f = some v ∧ 0 < v ∧ v < 15 := by
  decide

/-- Claim C11: no name is declared in both headers.  The names of the ppc64 header are
its field names followed by its override sources, the names of the s390x header are
its field names, and no name of either header occurs in the other. -/
theorem architectures_share_no_name :
    Hack.ppc64.map Define.name = fieldNames Hack.ppc64 ++ overrideSources Hack.ppc64 ∧
      Hack.s390x.map Define.name = fieldNames Hack.s390x ∧
      (∀ n ∈ Hack.ppc64.map Define.name, n ∉ Hack.s390x.map Define.name) ∧
      ∀ n ∈ Hack.s390x.map Define.name, n ∉ Hack.ppc64.map Define.name := by
  decide

/-- Claim C12: a mnemonic without an override is resolved to itself and is never an
error.  The override sources of the ppc64 header are `mfvsrd`, `mfvsrwz`, `mtvsrd`,
`mtvsrwz`, `mtvsrwa`, `isel`, `dcbf`, `sync`, `wait`, `rfebb`, and the s390x header has
none.  The loaded ppc64 override table returns every other mnemonic unchanged, the
loaded s390x override table returns every mnemonic unchanged.  The same holds for
macro expansion under the headers, for every identifier that is not the name of a
field. -/
theorem mnemonic_without_override_unchanged :
    overrideSources Hack.ppc64 =
        ["mfvsrd", "mfvsrwz", "mtvsrd", "mtvsrwz", "mtvsrwa", "isel", "dcbf", "sync", "wait",
         "rfebb", "sync"] ∧
      overrideSources Hack.s390x = [] ∧
      (∃ t, load Arch.ppc64 = Except.ok t ∧
        ∀ m, m ∉ ["mfvsrd", "mfvsrwz", "mtvsrd", "mtvsrwz", "mtvsrwa", "isel", "dcbf", "sync",
            "wait", "rfebb"] → t.resolveMnemonic m = m) ∧
      (∃ t, load Arch.s390x = Except.ok t ∧ ∀ m, t.resolveMnemonic m = m) ∧
      (∀ m, m ∉ ["mfvsrd", "mfvsrwz", "mtvsrd", "mtvsrwz", "mtvsrwa", "isel", "dcbf", "sync",
          "wait", "rfebb"] → m ∉ fieldNames Hack.ppc64 → resolve Arch.ppc64 m = Repl.ident m) ∧
      ∀ m, m ∉ fieldNames Hack.s390x → resolve Arch.s390x m = Repl.ident m := by
  have hnames : Hack.ppc64.map Define.name =
      fieldNames Hack.ppc64 ++ overrideSources Hack.ppc64 := by decide
  have hsrc : overrideSources Hack.ppc64 =
      ["mfvsrd", "mfvsrwz", "mtvsrd", "mtvsrwz", "mtvsrwa", "isel", "dcbf", "sync", "wait",
       "rfebb", "sync"] := by decide
  have hnames390 : Hack.s390x.map Define.name = fieldNames Hack.s390x := by decide
  refine ⟨hsrc, by decide, ?_, ?_, ?_, ?_⟩
  · obtain ⟨t, ht, _, _, ho, _⟩ := load_ppc64_summary
    refine ⟨t, ht, fun m hm => resolveMnemonic_of_not_source t m ?_⟩
    rw [ho]
    intro hmem
    apply hm
    simp only [List.mem_cons, List.mem_singleton, List.not_mem_nil, or_false] at hmem ⊢
    tauto
  · obtain ⟨t, ht, _, _, ho, _⟩ := load_s390x_summary
    refine ⟨t, ht, fun m => resolveMnemonic_of_not_source t m ?_⟩
    rw [ho]
    exact List.not_mem_nil m
  · intro m hm hf
    apply resolve_of_not_declared
    show m ∉ Hack.ppc64.map Define.name
    rw [hnames, hsrc, List.mem_append]
    rintro (h | h)
    · exact hf h
    · apply hm
      simp only [List.mem_cons, List.mem_singleton, List.not_mem_nil, or_false] at h ⊢
      tauto
  · intro m hf
    apply resolve_of_not_declared
    show m ∉ Hack.s390x.map Define.name
    rw [hnames390]
    exact hf

/-- Claim C13: a name that is no field of an architecture has no value there.  The
loaded ppc64 table fails with `UndefinedField` for every name outside the ppc64 field
names, so for every s390x field name, `R1`, `D2`, `V3` and `M4` among them; the loaded
s390x table fails with `UndefinedField` for every name outside the s390x field names,
so for every ppc64 field name, `RA`, `MB`, `XT` and `offset` among them.  Macro
expansion under the other header yields no integer for any of these names either. -/
theorem undeclared_field_is_undefined :
    (∃ t, load Arch.ppc64 = Except.ok t ∧ t.resolveField "RA" = Except.ok 1 ∧
        (∀ f, f ∉ fieldNames Hack.ppc64 →
          t.resolveField f = Except.error (TableError.undefinedField Arch.ppc64 f)) ∧
        ∀ f ∈ fieldNames Hack.s390x,
          t.resolveField f = Except.error (TableError.undefinedField Arch.ppc64 f)) ∧
      (∃ t, load Arch.s390x = Except.ok t ∧ t.resolveField "R1" = Except.ok 8 ∧
        (∀ f, f ∉ fieldNames Hack.s390x →
          t.resolveField f = Except.error (TableError.undefinedField Arch.s390x f)) ∧
        ∀ f ∈ fieldNames Hack.ppc64,
          t.resolveField f = Except.error (TableError.undefinedField Arch.s390x f)) ∧
      (∀ f ∈ ["R1", "D2", "V3", "M4"], f ∈ fieldNames Hack.s390x) ∧
      (∀ f ∈ ["RA", "MB", "XT", "offset"], f ∈ fieldNames Hack.ppc64) ∧
      (∀ f ∈ fieldNames Hack.s390x, fieldValue Arch.ppc64 f = none) ∧
      ∀ f ∈ fieldNames Hack.ppc64, fieldValue Arch.s390x f = none := by
  have hps : ∀ f ∈ fieldNames Hack.s390x, f ∉ fieldNames Hack.ppc64 := by decide
  have hsp : ∀ f ∈ fieldNames Hack.ppc64, f ∉ fieldNames Hack.s390x := by decide
  refine ⟨?_, ?_, by decide, by decide, by decide, by decide⟩
  · obtain ⟨t, ht, ha, hf, _, hra⟩ := load_ppc64_summary
    have hall : ∀ f, f ∉ fieldNames Hack.ppc64 →
        t.resolveField f = Except.error (TableError.undefinedField Arch.ppc64 f) := by
      intro f hnot
      rw [← ha]
      exact resolveField_of_not_field t f (by rw [hf]; exact hnot)
    exact ⟨t, ht, hra, hall, fun f hmem => hall f (hps f hmem)⟩
  · obtain ⟨t, ht, ha, hf, _, hr1⟩ := load_s390x_summary
    have hall : ∀ f, f ∉ fieldNames Hack.s390x →
        t.resolveField f = Except.error (TableError.undefinedField Arch.s390x f) := by
      intro f hnot
      rw [← ha]
      exact resolveField_of_not_field t f (by rw [hf]; exact hnot)
    exact ⟨t, ht, hr1, hall, fun f hmem => hall f (hsp f hmem)⟩

/-- Claim C14: two different ppc64 register-pair fields of one class never overlap.
Within each of the classes `RSp`, `RTp` (general), `FRBp`, `FRAp`, `FRTp`, `FRSp`
(floating point) and `XAp`, `XTp`, `XSp` (VSX), any two different fields resolve to
first indices `p` and `q` such that no register of the pair `p`, `p + 1` is a register
of the pair `q`, `q + 1`. -/
theorem ppc64_pair_fields_do_not_overlap :
    ∀ cls ∈ [["RSp", "RTp"], ["FRBp", "FRAp", "FRTp", "FRSp"], ["XAp", "XTp", "XSp"]],
      ∀ f ∈ cls, ∀ g ∈ cls, f ≠ g →
        ∃ p, fieldValue Arch.ppc64 f = some p ∧ ∃ q, fieldValue Arch.ppc64 g = some q ∧
          ∀ r ∈ pairRegisters p, r ∉ pairRegisters q := by
  decide

/-- Instance of `ppc64_pair_fields_do_not_overlap` at the general pair fields `RSp`
and `RTp`. -/
theorem ppc64_pair_fields_do_not_overlap_witness :
    "RSp" ≠ "RTp" ∧
      ∃ p, fieldValue Arch.ppc64 "RSp" = some p ∧ ∃ q, fieldValue Arch.ppc64 "RTp" = some q ∧
        ∀ r ∈ pairRegisters p, r ∉ pairRegisters q :=
  ⟨by decide, ppc64_pair_fields_do_not_overlap ["RSp", "RTp"] (by decide) "RSp" (by decide)
    "RTp" (by decide) (by decide)⟩

/-- Claim C15: mnemonic resolution under the ppc64 header is idempotent.  The override
targets are `xsrsp`, `rldicl`, `add` and `sc`; none of them is an override source or a
field name; for every identifier, scanning its expansion once more changes nothing,
and the expansion with rescanning is what a single look into the macro table gives. -/
theorem ppc64_override_resolution_idempotent :
    overrideTargets Hack.ppc64 =
        ["xsrsp", "xsrsp", "xsrsp", "xsrsp", "xsrsp", "rldicl", "add", "xsrsp", "xsrsp", "sc",
         "xsrsp"] ∧
      (∀ t ∈ overrideTargets Hack.ppc64,
        t ∉ overrideSources Hack.ppc64 ∧ t ∉ fieldNames Hack.ppc64) ∧
      (∀ m, rescan Arch.ppc64 (resolve Arch.ppc64 m) = resolve Arch.ppc64 m) ∧
      ∀ m, resolve Arch.ppc64 m = lookupOnce Arch.ppc64 m := by
  have hin : ∀ m ∈ Hack.ppc64.map Define.name,
      rescan Arch.ppc64 (resolve Arch.ppc64 m) = resolve Arch.ppc64 m ∧
        resolve Arch.ppc64 m = lookupOnce Arch.ppc64 m := by decide
  refine ⟨by decide, by decide, ?_, ?_⟩
  · intro m
    by_cases h : m ∈ Hack.ppc64.map Define.name
    · exact (hin m h).1
    · have hm : resolve Arch.ppc64 m = Repl.ident m := resolve_of_not_declared Arch.ppc64 m h
      rw [hm]
      exact hm
  · intro m
    by_cases h : m ∈ Hack.ppc64.map Define.name
    · exact (hin m h).2
    · rw [resolve_of_not_declared Arch.ppc64 m h, lookupOnce_of_not_declared Arch.ppc64 m h]

/-- Claim C16: in the ppc64 header no name is both a field and an override source.  No
field name is an override source, no override source is a field name, and every
declared name is one of the two.  `SC` is a field while `sc` is only the target of an
override and is declared nowhere; `S` is a field while `sync` is an override source. -/
theorem ppc64_fields_and_overrides_disjoint :
    (∀ n ∈ fieldNames Hack.ppc64, n ∉ overrideSources Hack.ppc64) ∧
      (∀ n ∈ overrideSources Hack.ppc64, n ∉ fieldNames Hack.ppc64) ∧
      (∀ n ∈ Hack.ppc64.map Define.name,
        (n ∈ fieldNames Hack.ppc64 ∧ n ∉ overrideSources Hack.ppc64) ∨
          (n ∈ overrideSources Hack.ppc64 ∧ n ∉ fieldNames Hack.ppc64)) ∧
      "SC" ∈ fieldNames Hack.ppc64 ∧ "sc" ∈ overrideTargets Hack.ppc64 ∧
      "sc" ∉ Hack.ppc64.map Define.name ∧
      "S" ∈ fieldNames Hack.ppc64 ∧ "sync" ∈ overrideSources Hack.ppc64 ∧
      resolve Arch.ppc64 "SC" = Repl.int 1 ∧ resolve Arch.ppc64 "sc" = Repl.ident "sc" ∧
      resolve Arch.ppc64 "S" = Repl.int 1 ∧
      resolve Arch.ppc64 "sync" = Repl.ident "xsrsp" := by
  decide

end Hack
